import Mathlib

/-!
Verification of the cineboxd showtime-aggregation core
(`src/routes/api/cineboxd.ts`) against its specification.

JavaScript strings are modelled as lists of characters (`Str`); JS string
operations (`slice`, `includes`, `replace`, `trim`, ...) become the
corresponding list operations.  Epoch milliseconds are `Nat`.  Fallible
upstream calls are modelled with `Except` / outcome oracles, and the Deno KV
store backing the chunked cache is a record of the records the code touches.
-/

/-- A JavaScript string, modelled as its list of characters (code units). -/
abbrev Str := List Char

/-- Convert a Lean string literal into the `Str` model. -/
def str (s : String) : Str := s.toList

/-- `Str.isEmpty`-style emptiness test, matching JS string falsiness. -/
def strIsEmpty (s : Str) : Bool := s.isEmpty

/-- JS `hay.includes(needle)`: substring containment test. -/
def strContains (hay needle : Str) : Bool :=
  match hay with
  | [] => needle.isEmpty
  | _ :: t => needle.isPrefixOf hay || strContains t needle

/- ============ Title Normalizer & Matcher (cineboxd.ts lines 428-466) ===== -/

/-- Whitespace characters matched by the regex class `\s` (ASCII subset). -/
def isWs (c : Char) : Bool :=
  c.toNat == 32 || c.toNat == 9 || c.toNat == 10 || c.toNat == 13 ||
  c.toNat == 11 || c.toNat == 12

/-- ASCII decimal digit test (regex `\d`). -/
def isDigit (c : Char) : Bool := 48 ≤ c.toNat && c.toNat ≤ 57

/-- JS `toLowerCase` restricted to its ASCII action (A-Z ↦ a-z). -/
def jsToLower (c : Char) : Char :=
  if 65 ≤ c.toNat && c.toNat ≤ 90 then Char.ofNat (c.toNat + 32) else c

/-- Combining diacritical marks U+0300–U+036F, removed by the
`replace(/[̀-ͯ]/g, "")` stage after NFD decomposition. -/
def isCombining (c : Char) : Bool := 768 ≤ c.toNat && c.toNat ≤ 879

/-- Characters kept by the `replace(/[^a-z0-9\s]/g, "")` stage. -/
def isAllowed (c : Char) : Bool :=
  (97 ≤ c.toNat && c.toNat ≤ 122) || (48 ≤ c.toNat && c.toNat ≤ 57) || isWs c

/-- Auxiliary state-passing pass for `replace(/\s+/g, " ")`: `prevWs` records
whether the previous kept character already came from a whitespace run. -/
def collapseWsAux : Bool → Str → Str
  | _, [] => []
  | prevWs, c :: rest =>
    if isWs c then
      if prevWs then collapseWsAux true rest
      else ' ' :: collapseWsAux true rest
    else c :: collapseWsAux false rest

/-- JS `replace(/\s+/g, " ")`: collapse every whitespace run to one space. -/
def collapseWs (s : Str) : Str := collapseWsAux false s

/-- JS `trim()`: strip leading and trailing whitespace. -/
def strTrim (s : Str) : Str :=
  ((s.dropWhile isWs).reverse.dropWhile isWs).reverse

/-- `normalizeTitle` (cineboxd.ts 429-437): lowercase, NFD-decompose and strip
diacritics, strip everything outside `[a-z0-9\s]`, collapse whitespace, trim.
NFD decomposition is modelled as the identity (it is the identity on strings
without precomposed characters; the combining marks it produces are removed by
the `isCombining` filter, which is modelled explicitly). -/
def normalizeTitle (title : Str) : Str :=
  strTrim (collapseWs
    (((title.map jsToLower).filter (fun c => !isCombining c)).filter isAllowed))

/-- Strip a trailing id segment: one hyphen followed by digits at the end
of the slug (the first `replace` in `slugToTitle`). -/
def stripTrailingId (s : Str) : Str :=
  let r := s.reverse
  let ds := r.takeWhile isDigit
  if !ds.isEmpty && (r.drop ds.length).head? == some '-' then
    ((r.drop ds.length).drop 1).reverse
  else s

/-- Strip one occurrence of `suf` anchored at the end (regex `suf$`). -/
def stripSuffixStr (suf s : Str) : Str :=
  if suf.reverse.isPrefixOf s.reverse then (s.reverse.drop suf.length).reverse
  else s

/-- `slugToTitle` (cineboxd.ts 440-447): drop the trailing numeric id, drop the
Dutch-dub / original-version suffixes, turn hyphens into spaces, trim. -/
def slugToTitle (slug : Str) : Str :=
  strTrim
    (((stripSuffixStr (str "-originele-versie")
        (stripSuffixStr (str "-nederlands-gesproken")
          (stripTrailingId slug)))).map
      (fun c => if c = '-' then ' ' else c))

/-- One entry of the Pathé zone catalog (cineboxd.ts 370-375). -/
structure PatheZoneShow where
  slug : Str
  tags : List Str
  bookable : Bool
  isKids : Bool
deriving DecidableEq, Repr

/-- `matchPatheFilmsFromZone` (cineboxd.ts 450-466): keep the bookable zone
entries whose normalized slug-derived title matches some normalized watchlist
title by equality or substring containment in either direction. -/
def matchPatheFilmsFromZone
    (watchlistTitles : List Str) (zoneShows : List PatheZoneShow) :
    List PatheZoneShow :=
  let normalizedWatchlist := watchlistTitles.map normalizeTitle
  zoneShows.filter (fun zs =>
    zs.bookable &&
      (let normalizedSlugTitle := normalizeTitle (slugToTitle zs.slug)
       normalizedWatchlist.any (fun watchlistTitle =>
         normalizedSlugTitle == watchlistTitle ||
         strContains normalizedSlugTitle watchlistTitle ||
         strContains watchlistTitle normalizedSlugTitle)))

example : normalizeTitle (str "!!!") = [] := by decide
example : strContains (str "abc") (str "") = true := by decide
example : slugToTitle (str "avatar-fire-and-ash-40584") =
    str "avatar fire and ash" := by decide

/- ============ Chunked Key/Value Cache (cineboxd.ts lines 4-7, 111-200) ==== -/

/-- `CACHE_TTL_MS` (cineboxd.ts line 5): 36 hours in milliseconds. -/
def CACHE_TTL_MS : Nat := 36 * 60 * 60 * 1000

/-- `CHUNK_SIZE` (cineboxd.ts line 7): 60000, kept under the KV store's
64KB per-value limit. -/
def CHUNK_SIZE : Nat := 60000

/-- Fuel-driven worker for `chunksOf`; the fuel starts at the list length, so
it never runs out while the list shrinks by at least one element per step. -/
def chunksOfGo (n : Nat) : Nat → List α → List (List α)
  | _, [] => []
  | 0, _ :: _ => []
  | fuel + 1, c :: rest =>
    (c :: rest).take n :: chunksOfGo n fuel ((c :: rest).drop n)

/-- The chunk-splitting loop of `setCache` (cineboxd.ts 170-172):
`for (let i = 0; i < json.length; i += CHUNK_SIZE) chunks.push(json.slice(i, i + CHUNK_SIZE))`. -/
def chunksOf (n : Nat) (s : List α) : List (List α) := chunksOfGo n s.length s

/-- The metadata record a cache entry stores under `["cache", key, "meta"]`:
`{ chunks: number, timestamp: number }`. -/
structure CacheMeta where
  chunks : Nat
  timestamp : Nat
deriving DecidableEq, Repr

/-- The Deno KV records associated with one logical cache key: the metadata
record and the numbered chunk records (`none` = record absent). -/
structure KVState where
  meta : Option CacheMeta
  chunk : Nat → Option Str

/-- The empty store: no metadata record, no chunk records. -/
def KVState.empty : KVState := { meta := none, chunk := fun _ => none }

/-- The Deno KV per-value size ceiling: 64 KiB of serialized bytes.  A
`store.set` whose value serializes beyond this throws. -/
def KV_VALUE_LIMIT : Nat := 65536

/-- `BATCH_SIZE` inside `setCache` (cineboxd.ts 182): chunk records are
written 10 per atomic transaction. -/
def KV_BATCH_SIZE : Nat := 10

/-- The UTF-8 byte size of a string: `CHUNK_SIZE` counts UTF-16 code units
(`json.slice`), but the store measures serialized bytes, so the two differ
on non-Latin-1 text. -/
def utf8Length (s : Str) : Nat := (s.map Char.utf8Size).sum

/-- Whether one chunk record's value fits under the store's per-value
ceiling; an oversized value makes the chunk write throw. -/
def chunkFits (c : Str) : Bool := utf8Length c ≤ KV_VALUE_LIMIT

/-- One committed atomic batch: chunk records `start..start+batch.length-1`
are all written. -/
def commitBatch (st : KVState) (start : Nat) (batch : List Str) : KVState :=
  { st with chunk := fun i =>
      if start ≤ i ∧ i < start + batch.length then batch.get? (i - start)
      else st.chunk i }

/-- The batched chunk-writing loop of `setCache` (cineboxd.ts 183-192): each
batch commits atomically; a batch containing an oversized chunk value makes
the write throw, which the surrounding `catch` swallows, aborting the loop —
earlier batches stay written, this batch and the later ones are not. -/
def writeBatches (st : KVState) (start : Nat) : List (List Str) → KVState
  | [] => st
  | batch :: rest =>
    if batch.all chunkFits then
      writeBatches (commitBatch st start batch) (start + batch.length) rest
    else st

/-- `setCache` (cineboxd.ts 161-200): serialize, split into `CHUNK_SIZE`
UTF-16-unit chunks, store the metadata record `{chunks, timestamp}` (small,
always fits), then write the chunk records in batches of `KV_BATCH_SIZE`; a
chunk whose value exceeds the store's per-value byte ceiling makes its batch
throw, caught by the outer `catch` (silent partial failure).  Chunk records
beyond the new chunk count are not touched.  `stringify` stands for
`JSON.stringify` and `now` for `Date.now()`. -/
def setCache (stringify : α → Str) (now : Nat) (st : KVState) (data : α) :
    KVState :=
  let json := stringify data
  let chunks := chunksOf CHUNK_SIZE json
  writeBatches
    { st with meta := some { chunks := chunks.length, timestamp := now } }
    0 (chunksOf KV_BATCH_SIZE chunks)

/-- The chunk-reading loop of `getCached` (cineboxd.ts 139-147), reading `k`
chunk records starting at index `i`; a missing record — or an empty one, which
the JS falsiness test `if (!chunk.value)` also rejects — fails the whole read. -/
def readChunksAux (st : KVState) : Nat → Nat → Option (List Str)
  | _, 0 => some []
  | i, k + 1 =>
    match st.chunk i with
    | none => none
    | some c =>
      if c.isEmpty then none
      else (readChunksAux st (i + 1) k).map (fun rest => c :: rest)

/-- Read chunk records `0..n-1` in index order and concatenate them. -/
def readChunks (st : KVState) (n : Nat) : Option Str :=
  (readChunksAux st 0 n).map List.flatten

/-- The state after the expiry cleanup of `getCached` (cineboxd.ts 129-134):
the metadata record and chunk records `0..chunks-1` are deleted atomically. -/
def expireDelete (st : KVState) (m : CacheMeta) : KVState :=
  { meta := none,
    chunk := fun i => if i < m.chunks then none else st.chunk i }

/-- `getCached` (cineboxd.ts 111-159): read the metadata record (absent ⇒
MISS); if `now - timestamp >= CACHE_TTL_MS`, delete all records and MISS;
otherwise read all chunks (any missing ⇒ MISS), join them and parse.  `parse`
stands for `JSON.parse`, returning `none` when it throws (the surrounding
`try/catch` turns that into a MISS).  Returns the result together with the
store state after the call. -/
def getCached (parse : Str → Option α) (st : KVState) (now : Nat) :
    Option α × KVState :=
  match st.meta with
  | none => (none, st)
  | some m =>
    if CACHE_TTL_MS ≤ now - m.timestamp then
      (none, expireDelete st m)
    else
      match readChunks st m.chunks with
      | none => (none, st)
      | some joined => (parse joined, st)

/- ============ Show data model and TMDB enrichment ======================== -/

/-- The chain discriminator of a `Show` (cineboxd.ts line 93). -/
inductive ChainTag where
  | cineville
  | pathe
deriving DecidableEq, Repr

/-- The `film` part of a `Show` (cineboxd.ts 82-88); `poster` models the
optional `{ url }` object by its url string. -/
structure Film where
  title : Str
  slug : Str
  poster : Option Str
  duration : Nat
  directors : List Str
deriving DecidableEq, Repr

/-- The `theater` part of a `Show` (cineboxd.ts 89-92). -/
structure Theater where
  name : Str
  city : Option Str
deriving DecidableEq, Repr

/-- The unified `Show` record (cineboxd.ts 77-94). -/
structure Show where
  id : Str
  startDate : Str
  endDate : Str
  ticketingUrl : Str
  film : Film
  theater : Theater
  chain : Option ChainTag
deriving DecidableEq, Repr

/-- TMDB enrichment data as produced by `tmdbDetailsToMetadata`
(cineboxd.ts 295-311): optional poster url, directors, runtime. -/
structure TmdbMeta where
  poster : Option Str
  directors : List Str
  duration : Nat
deriving DecidableEq, Repr

/-- JS truthiness of `film.poster?.url`: false when the poster object is
absent or its url is the empty string. -/
def posterUrlPresent (f : Film) : Bool :=
  match f.poster with
  | none => false
  | some u => !u.isEmpty

/-- The per-show enrichment step of `fetchCinevilleShowtimes`
(cineboxd.ts 836-857): tag the show `cineville`, look up TMDB metadata by
title (an empty title is falsy, so it is never looked up), and fill in the
poster, directors and duration only where the chain left them empty. -/
def enrichShow (lookup : Str → Option TmdbMeta) (s : Show) : Show :=
  let s0 := { s with chain := some ChainTag.cineville }
  match (if s.film.title.isEmpty then none else lookup s.film.title) with
  | none => s0
  | some tmdb =>
    let f1 :=
      if !posterUrlPresent s0.film && tmdb.poster.isSome then
        { s0.film with poster := tmdb.poster }
      else s0.film
    let f2 :=
      if f1.directors.isEmpty && !tmdb.directors.isEmpty then
        { f1 with directors := tmdb.directors }
      else f1
    let f3 :=
      if f2.duration == 0 && tmdb.duration != 0 then
        { f2 with duration := tmdb.duration }
      else f2
    { s0 with film := f3 }

/- ============ Pathé showtime conversion (cineboxd.ts 469-506) ============ -/

/-- A raw Pathé showtime (cineboxd.ts 378-386). -/
structure PatheShowtime where
  status : Str
  time : Str
  version : Str
  tags : List Str
  refCmd : Str
  auditoriumName : Str
  endTime : Str
deriving DecidableEq, Repr

/-- A configured Pathé cinema location (cineboxd.ts 20). -/
structure PatheCinema where
  slug : Str
  city : Str
  name : Str
deriving DecidableEq, Repr

/-- The id `patheShowtimeToShow` builds (cineboxd.ts 488):
`pathe-${filmSlug}-${cinema.slug}-${showtime.time}`. -/
def mkPatheId (filmSlug cinemaSlug time : Str) : Str :=
  str "pathe-" ++ filmSlug ++ str "-" ++ cinemaSlug ++ str "-" ++ time

/-- `patheShowtimeToShow` (cineboxd.ts 469-506).  `isoOf` models the
`new Date(...).toISOString()` conversion of the source's local-time string;
an empty `endTime` or `refCmd` is falsy in JS, triggering the fallbacks. -/
def patheShowtimeToShow (isoOf : Str → Str) (showtime : PatheShowtime)
    (filmSlug filmTitle : Str) (cinema : PatheCinema)
    (tmdbMetadata : Option TmdbMeta) : Show :=
  let startDate := isoOf showtime.time
  let endDate := if showtime.endTime.isEmpty then startDate
    else isoOf showtime.endTime
  { id := mkPatheId filmSlug cinema.slug showtime.time
    startDate := startDate
    endDate := endDate
    ticketingUrl := if showtime.refCmd.isEmpty then
        str "https://www.pathe.nl/nl/films/" ++ filmSlug
      else showtime.refCmd
    film :=
      { title := filmTitle
        slug := filmSlug
        poster := tmdbMetadata.bind (fun m => m.poster)
        duration := (tmdbMetadata.map (fun m => m.duration)).getD 0
        directors := (tmdbMetadata.map (fun m => m.directors)).getD [] }
    theater := { name := cinema.name, city := some cinema.city }
    chain := some ChainTag.pathe }

/- ============ Chain Adapter A: Cineville (cineboxd.ts 674-862) =========== -/

/-- One `{id, title}` record from the Cineville production-id resolution
query (cineboxd.ts 669-671). -/
structure CvFilm where
  id : Str
  title : Str
deriving DecidableEq, Repr

/-- Upstream error payload (an HTTP failure text or a network error). -/
abbrev UpErr := Str

/-- `mapM` in the `Except` monad, modelling `Promise.all` over fallible
requests: the first rejection rejects the whole batch list. -/
def exceptMapM (f : α → Except ε β) : List α → Except ε (List β)
  | [] => .ok []
  | a :: rest =>
    match f a with
    | .error e => .error e
    | .ok b => (exceptMapM f rest).map (fun bs => b :: bs)

/-- The outside world as seen by the Cineville adapter: the result of the
production-ids query (`getCinevilleProductionIds` throws on a network failure
or non-2xx response, hence `Except`), the result of one batched showtimes
query per id batch (same failure mode), whether `TMDB_API_KEY` is configured,
and the TMDB metadata lookup (which never throws — every TMDB fetch error is
caught and becomes `null`). -/
structure CvEnv where
  films : List Str → Except UpErr (List CvFilm)
  showtimesBatch : List CvFilm → Except UpErr (List Show)
  hasTmdbKey : Bool
  tmdb : Str → Option TmdbMeta

/-- Cineville batch size (cineboxd.ts 727): 20 production ids per query. -/
def CV_BATCH_SIZE : Nat := 20

/-- A show needing enrichment (cineboxd.ts 805-813): poster url or directors
missing (duration alone does not qualify a film for enrichment). -/
def cvNeedsEnrichment (s : Show) : Bool :=
  !posterUrlPresent s.film || s.film.directors.isEmpty

/-- The `tmdbMetadataMap` lookup of `fetchCinevilleShowtimes` (815-833): only
populated when an API key is configured, and only for (non-empty) titles of
shows that need enrichment. -/
def cvLookup (env : CvEnv) (shows : List Show) (title : Str) :
    Option TmdbMeta :=
  if env.hasTmdbKey &&
      shows.any (fun s =>
        !s.film.title.isEmpty && s.film.title == title &&
          cvNeedsEnrichment s) then
    env.tmdb title
  else none

/-- The body of the `try` block of `fetchCinevilleShowtimes` (715-857):
resolve production ids (propagating its failure), return `[]` when nothing
matched, query the showtimes of each 20-film batch in parallel (any batch
failure failing the whole `Promise.all`), flatten, and enrich/tag each show. -/
def cvRun (env : CvEnv) (watchlistTitles : List Str) :
    Except UpErr (List Show) :=
  match env.films watchlistTitles with
  | .error e => .error e
  | .ok films =>
    if films.isEmpty then .ok []
    else
      match exceptMapM env.showtimesBatch (chunksOf CV_BATCH_SIZE films) with
      | .error e => .error e
      | .ok batchResults =>
        let shows := batchResults.flatten
        .ok (shows.map (enrichShow (cvLookup env shows)))

/-- `fetchCinevilleShowtimes` (712-862): the whole pipeline runs inside
`try { ... } catch (e) { console.error(...); return []; }`, so every failure
of the inner pipeline is caught and becomes an empty list; the adapter's
promise itself never rejects. -/
def fetchCinevilleShowtimes (env : CvEnv) (watchlistTitles : List Str) :
    Except UpErr (List Show) :=
  match cvRun env watchlistTitles with
  | .ok shows => .ok shows
  | .error _ => .ok []

/- ============ List Source Client (cineboxd.ts 606-667) =================== -/

/-- One `{title}` record of the Letterboxd list payload. -/
structure LbFilm where
  title : Str
deriving DecidableEq, Repr

/-- The outcome of one `fetch` of the Letterboxd list service: a 2xx response
with its JSON payload, a non-2xx status code, or a network-level error with
its message. -/
inductive LbOutcome where
  | ok (payload : List LbFilm)
  | status (code : Nat)
  | netErr (msg : Str)
deriving DecidableEq, Repr

/-- The errors `getLetterboxdList` can raise: the typed 503 / 404 / generic
HTTP errors it constructs, a propagated network error, and the unreachable
post-loop fallback (`throw lastError || new Error("Failed to fetch ...")`). -/
inductive LbError where
  | unavailable
  | notFound
  | httpFail (code : Nat)
  | net (msg : Str)
  | fallback
deriving DecidableEq, Repr

/-- Decimal rendering of a number, for interpolation into error messages. -/
def natStr (n : Nat) : Str := (Nat.repr n).toList

/-- The exact message of each error `getLetterboxdList` can throw
(cineboxd.ts 633-645, 666); the 404 and generic-HTTP messages embed the raw
`listPath`, a network error carries its own message verbatim. -/
def lbErrorMessage (listPath : Str) : LbError → Str
  | .unavailable =>
    str "The Letterboxd service is temporarily unavailable. Please try again in a moment."
  | .notFound =>
    str "List not found: \"" ++ listPath ++
      str "\". Please check the URL or username."
  | .httpFail code =>
    str "Failed to fetch list \"" ++ listPath ++ str "\" (HTTP " ++
      natStr code ++ str ")"
  | .net m => m
  | .fallback => str "Failed to fetch Letterboxd list"

/-- One iteration of the retry loop of `getLetterboxdList` (613-664), with
structural fuel (the loop runs at most `maxRetries` iterations).  A 503 with
attempts left retries after the delay (623-631); otherwise the typed error
for the response — "temporarily unavailable" for a final 503, "list not
found" for a 404, the generic failure for any other non-2xx status — is
thrown and lands in the same `catch` as a network error, which retries iff
attempts remain AND the error message does not contain `"not found"`
(650-653).  The 404 message always contains `"not found"`, so it is never
retried; the generic message embeds the raw list path, so it is retried
unless the list path itself mentions `"not found"`. -/
def lbLoop (listPath : Str) (fetch : Nat → LbOutcome) (maxRetries : Nat) :
    Nat → Nat → Except LbError (List LbFilm)
  | _, 0 => .error .fallback
  | attempt, fuel + 1 =>
    match fetch attempt with
    | .ok payload => .ok payload
    | .status code =>
      if code == 503 && attempt < maxRetries then
        lbLoop listPath fetch maxRetries (attempt + 1) fuel
      else
        let e : LbError :=
          if code == 503 then .unavailable
          else if code == 404 then .notFound
          else .httpFail code
        if attempt < maxRetries &&
            !strContains (lbErrorMessage listPath e) (str "not found") then
          lbLoop listPath fetch maxRetries (attempt + 1) fuel
        else .error e
    | .netErr m =>
      if attempt < maxRetries &&
          !strContains (lbErrorMessage listPath (.net m)) (str "not found")
        then lbLoop listPath fetch maxRetries (attempt + 1) fuel
      else .error (.net m)

/-- `getLetterboxdList` (606-667) with its default `maxRetries = 3`: run the
retry loop from attempt 1.  `fetch attempt` is the outcome of the attempt-th
`fetch` of the list URL for `listPath`. -/
def getLetterboxdList (listPath : Str) (fetch : Nat → LbOutcome)
    (maxRetries : Nat) : Except LbError (List LbFilm) :=
  lbLoop listPath fetch maxRetries 1 maxRetries

/- ============ Aggregation Orchestrator (cineboxd.ts 870-932) ============= -/

/-- The settled state of one chain's promise, as inspected after
`Promise.allSettled` (cineboxd.ts 893-904). -/
inductive Settled (α : Type) where
  | fulfilled (value : α)
  | rejected (reason : Str)
deriving DecidableEq, Repr

/-- `status === "fulfilled" ? result.value : []` (cineboxd.ts 899-904). -/
def settledValue : Settled (List Show) → List Show
  | .fulfilled v => v
  | .rejected _ => []

/-- The response envelope `{ data: { showtimes: { data: allShows } } }`
(cineboxd.ts 922), modelled by its one payload field. -/
structure RespEnvelope where
  shows : List Show
deriving DecidableEq, Repr

/-- The outside world as seen by `fetchAndCacheShowtimes`: the Letterboxd
fetch outcomes, and the settled outcome of each chain adapter's promise as a
function of the film titles passed to it. -/
structure OrchEnv where
  lbFetch : Nat → LbOutcome
  cineville : List Str → Settled (List Show)
  pathe : List Str → Settled (List Show)

/-- `fetchAndCacheShowtimes` (870-932): cache lookup first (a hit is returned
as-is); on a miss fetch the Letterboxd list — the only step whose failure
escapes, rethrown by the outer `catch` — then run both chain adapters under
`Promise.allSettled`, replace a rejected chain by an empty list, concatenate
Cineville's shows before Pathé's, wrap in the envelope and store it in the
cache.  Returns the result together with the cache state after the call. -/
def fetchAndCacheShowtimes (parse : Str → Option RespEnvelope)
    (stringify : RespEnvelope → Str) (now : Nat) (st : KVState)
    (listPath : Str) (env : OrchEnv) :
    Except LbError RespEnvelope × KVState :=
  let looked := getCached parse st now
  match looked.1 with
  | some cached => (.ok cached, looked.2)
  | none =>
    match getLetterboxdList listPath env.lbFetch 3 with
    | .error e => (.error e, looked.2)
    | .ok listData =>
      let filmTitles := listData.map (fun x => x.title)
      let cinevilleShows := settledValue (env.cineville filmTitles)
      let patheShows := settledValue (env.pathe filmTitles)
      let resp : RespEnvelope := { shows := cinevilleShows ++ patheShows }
      (.ok resp, setCache stringify now looked.2 resp)

/- ============ Concrete instances used in the theorems below ============== -/

/-- Retryability of one fetch outcome under `getLetterboxdList`'s policy for
the given list path: a 503 always retries while attempts remain; any other
non-2xx status is retried only when the thrown error's message — which
embeds the raw list path — does not contain "not found" (so a 404 never
retries, and neither does any other status when the list path itself
mentions "not found"); a network error is retried under the same
message test. -/
def lbRetryable (listPath : Str) : LbOutcome → Bool
  | .ok _ => false
  | .status code =>
    code == 503 ||
      !strContains
        (lbErrorMessage listPath
          (if code == 404 then .notFound else .httpFail code))
        (str "not found")
  | .netErr m => !strContains m (str "not found")

/-- The error `getLetterboxdList` raises when its final attempt yields the
given (non-`ok`) outcome. -/
def lbFinalErr : LbOutcome → LbError
  | .ok _ => .fallback
  | .status code =>
    if code == 503 then .unavailable
    else if code == 404 then .notFound
    else .httpFail code
  | .netErr m => .net m

/-- A fetch oracle whose first attempt returns HTTP 500 and whose second
attempt succeeds. -/
def lbFetch500ThenOk : Nat → LbOutcome
  | 1 => .status 500
  | _ => .ok [{ title := str "x" }]

/-- A cache-store state whose metadata record announces 3 chunks while only
chunks 0 and 1 exist (chunk 2 was deleted out-of-band). -/
def c4State : KVState :=
  { meta := some { chunks := 3, timestamp := 0 },
    chunk := fun i => if i < 2 then some (str "x") else none }

/-- A Cineville environment whose production-ids query fails. -/
def cvBadEnv : CvEnv :=
  { films := fun _ => .error (str "boom"),
    showtimesBatch := fun _ => .ok [],
    hasTmdbKey := false,
    tmdb := fun _ => none }

/-- A concrete Pathé cinema. -/
def demoCinema : PatheCinema :=
  { slug := str "pathe-city", city := str "Amsterdam", name := str "Pathé City" }

/-- A Pathé showtime in auditorium 1. -/
def demoShowtime1 : PatheShowtime :=
  { status := str "available", time := str "2025-12-21 17:00:00",
    version := str "ov", tags := [], refCmd := str "https://tickets/1",
    auditoriumName := str "Zaal 1", endTime := str "2025-12-21 19:00:00" }

/-- A distinct Pathé showtime of the same film, same cinema, same start time,
in auditorium 2. -/
def demoShowtime2 : PatheShowtime :=
  { status := str "available", time := str "2025-12-21 17:00:00",
    version := str "ov", tags := [], refCmd := str "https://tickets/2",
    auditoriumName := str "Zaal 2", endTime := str "2025-12-21 19:00:00" }

/-- A fully chain-provided Show (poster, directors and duration present). -/
def demoShow : Show :=
  { id := str "cv-1", startDate := str "2025-12-21T16:00:00Z",
    endDate := str "2025-12-21T18:00:00Z",
    ticketingUrl := str "https://tickets/cv",
    film :=
      { title := str "Film A", slug := str "film-a",
        poster := some (str "https://poster/a"), duration := 120,
        directors := [str "Original Director"] },
    theater := { name := str "Kriterion", city := some (str "Amsterdam") },
    chain := none }

/-- TMDB metadata that would supply different values for every field. -/
def demoTmdb : TmdbMeta :=
  { poster := some (str "https://poster/tmdb"), duration := 95,
    directors := [str "Other Director"] }

/-- An orchestrator environment: the list fetch succeeds, the Cineville
promise rejects, the Pathé promise fulfills with one show. -/
def demoOrchEnv : OrchEnv :=
  { lbFetch := fun _ => .ok [{ title := str "Film A" }],
    cineville := fun _ => .rejected (str "cineville down"),
    pathe := fun _ => .fulfilled [demoShow] }

/-- A bookable and a non-bookable zone entry. -/
def demoZone : List PatheZoneShow :=
  [{ slug := str "some-film-123", tags := [], bookable := true,
     isKids := false },
   { slug := str "other-film-99", tags := [], bookable := false,
     isKids := false }]


/- ============ Helper lemmas ============================================== -/

/-- If some chunk record among the `k` read (starting at `i`) is absent or
empty, the chunk-reading loop fails. -/
theorem readChunksAux_missing (st : KVState) :
    ∀ (k : Nat) (i : Nat),
      (∃ j, j < k ∧ (st.chunk (i + j) = none ∨ st.chunk (i + j) = some [])) →
      readChunksAux st i k = none := by
  intro k
  induction k with
  | zero => intro i ⟨j, hj, _⟩; omega
  | succ k ih =>
    intro i ⟨j, hj, hmiss⟩
    match hj0 : j with
    | 0 =>
      simp only [Nat.add_zero] at hmiss
      rcases hmiss with hm | hm <;> simp [readChunksAux, hm]
    | j' + 1 =>
      cases hchunk : st.chunk i with
      | none => simp [readChunksAux, hchunk]
      | some c =>
        by_cases hce : c.isEmpty
        · simp [readChunksAux, hchunk, hce]
        · have hrec : readChunksAux st (i + 1) k = none := by
            apply ih
            refine ⟨j', by omega, ?_⟩
            have harith : i + 1 + j' = i + (j' + 1) := by omega
            rw [harith]
            exact hmiss
          simp [readChunksAux, hchunk, hce, hrec]

/-- JS `includes` with an empty needle is always true. -/
theorem strContains_nil (hay : Str) : strContains hay [] = true := by
  cases hay <;> simp [strContains, List.isPrefixOf]

/-- C10: if some watchlist title normalizes to the empty string (for example
a title made only of punctuation), every bookable entry of the Pathé zone
catalog is accepted as a match, because the empty string is a substring of
every normalized slug-derived title and the matcher has no guard excluding
empty normalized titles. -/
theorem empty_normalized_title_matches_every_bookable
    (watchlistTitles : List Str) (zoneShows : List PatheZoneShow) (t : Str)
    (ht : t ∈ watchlistTitles) (hempty : normalizeTitle t = []) :
    matchPatheFilmsFromZone watchlistTitles zoneShows =
      zoneShows.filter (fun zs => zs.bookable) := by
  unfold matchPatheFilmsFromZone
  apply List.filter_congr
  intro zs _
  have hmem : ([] : Str) ∈ watchlistTitles.map normalizeTitle := by
    rw [← hempty]
    exact List.mem_map_of_mem normalizeTitle ht
  have hany : (watchlistTitles.map normalizeTitle).any
      (fun watchlistTitle =>
        normalizeTitle (slugToTitle zs.slug) == watchlistTitle ||
        strContains (normalizeTitle (slugToTitle zs.slug)) watchlistTitle ||
        strContains watchlistTitle (normalizeTitle (slugToTitle zs.slug))) =
      true := by
    apply List.any_eq_true.mpr
    refine ⟨[], hmem, ?_⟩
    simp [strContains_nil]
  simp only [hany, Bool.and_true]

/-- Witness for C10: with the watchlist `["!!!"]` (which normalizes to the
empty string), the matcher accepts exactly the bookable zone entries. -/
theorem empty_normalized_title_matches_every_bookable_witness :
    matchPatheFilmsFromZone [str "!!!"] demoZone =
      [{ slug := str "some-film-123", tags := [], bookable := true,
         isKids := false }] := by
  rw [empty_normalized_title_matches_every_bookable [str "!!!"] demoZone
    (str "!!!") (by decide) (by decide)]
  decide

/-- C4 counterexample: with metadata announcing 3 chunks, chunks 0 and 1
present, chunk 2 missing and no expiry, `getCached` does return MISS, but it
does NOT delete the associated records — the whole store state (metadata
record included) is left unchanged, refuting the claimed lazy deletion. -/
theorem missing_chunk_no_deletion_counterexample :
    (getCached (some : Str → Option Str) c4State 1).1 = none ∧
    (getCached (some : Str → Option Str) c4State 1).2 = c4State ∧
    c4State.meta = some { chunks := 3, timestamp := 0 } := by
  refine ⟨?_, rfl, rfl⟩
  decide

/-- C4 amended: on an unexpired entry with a missing (or empty) chunk record,
`getCached` returns MISS without raising and without partial data, leaving
every record in place (deletion happens only on TTL expiry). -/
theorem missing_chunk_is_miss_without_deletion {α : Type}
    (parse : Str → Option α) (st : KVState) (m : CacheMeta) (tq : Nat)
    (hmeta : st.meta = some m)
    (hfresh : tq - m.timestamp < CACHE_TTL_MS)
    (hmiss : ∃ j, j < m.chunks ∧
      (st.chunk j = none ∨ st.chunk j = some [])) :
    getCached parse st tq = (none, st) := by
  have httl : ¬ (CACHE_TTL_MS ≤ tq - m.timestamp) := by omega
  have hread : readChunks st m.chunks = none := by
    unfold readChunks
    rw [readChunksAux_missing st m.chunks 0
      (by
        obtain ⟨j, hj, hm⟩ := hmiss
        exact ⟨j, hj, by simpa using hm⟩)]
    rfl
  simp [getCached, hmeta, httl, hread]

/-- Witness for the amended C4 at the concrete 3-chunks-2-present store. -/
theorem missing_chunk_is_miss_without_deletion_witness :
    getCached (some : Str → Option Str) c4State 1 = (none, c4State) :=
  missing_chunk_is_miss_without_deletion some c4State
    { chunks := 3, timestamp := 0 } 1 rfl (by decide)
    ⟨2, by decide, Or.inl rfl⟩

/-- C8: enrichment never overwrites a chain-provided field — a present
(non-empty) poster url, a non-empty directors list and a non-zero duration
each survive `enrichShow` unchanged, whatever the enrichment source would
supply. -/
theorem enrichment_preserves_present_fields
    (lookup : Str → Option TmdbMeta) (s : Show) :
    (∀ u, s.film.poster = some u → u ≠ [] →
      (enrichShow lookup s).film.poster = some u) ∧
    (s.film.directors ≠ [] →
      (enrichShow lookup s).film.directors = s.film.directors) ∧
    (s.film.duration ≠ 0 →
      (enrichShow lookup s).film.duration = s.film.duration) := by
  unfold enrichShow
  cases hlk : (if s.film.title.isEmpty then none else lookup s.film.title) with
  | none => exact ⟨fun u hu _ => hu, fun _ => rfl, fun _ => rfl⟩
  | some tmdb =>
    simp only
    refine ⟨?_, ?_, ?_⟩
    · intro u hu hune
      have hpresent : posterUrlPresent s.film = true := by
        simp [posterUrlPresent, hu, List.isEmpty_iff, hune]
      simp only [hpresent, Bool.not_true, Bool.false_and, if_false]
      split_ifs <;> simp_all
    · intro hdir
      have hde : s.film.directors.isEmpty = false := by
        simpa [List.isEmpty_iff] using hdir
      by_cases hp : !posterUrlPresent s.film && tmdb.poster.isSome <;>
        simp [hp, hde] <;> split_ifs <;> rfl
    · intro hdur
      have hd0 : (s.film.duration == 0) = false := by
        simpa using hdur
      by_cases hp : !posterUrlPresent s.film && tmdb.poster.isSome <;>
        by_cases hdirs :
          s.film.directors.isEmpty && !tmdb.directors.isEmpty <;>
        simp [hp, hdirs, hd0]

/-- Witness for C8: a show with poster, directors and duration all provided
by the chain keeps all three fields even though the TMDB source would supply
different values for each. -/
theorem enrichment_preserves_present_fields_witness :
    (enrichShow (fun _ => some demoTmdb) demoShow).film.poster =
      some (str "https://poster/a") ∧
    (enrichShow (fun _ => some demoTmdb) demoShow).film.directors =
      [str "Original Director"] ∧
    (enrichShow (fun _ => some demoTmdb) demoShow).film.duration = 120 := by
  have h := enrichment_preserves_present_fields
    (fun _ => some demoTmdb) demoShow
  refine ⟨h.1 (str "https://poster/a") rfl (by decide), ?_, ?_⟩
  · have := h.2.1 (by decide)
    rw [this]
    rfl
  · have := h.2.2 (by decide)
    rw [this]
    rfl

/-- C9 counterexample: two distinct Pathé showtimes of the same film at the
same cinema and the same start time but in different auditoriums are mapped
to Shows with EQUAL ids — the constructed id ignores the auditorium, so ids
are not pairwise distinct within one aggregation result. -/
theorem pathe_duplicate_id_counterexample :
    (patheShowtimeToShow (fun s => s) demoShowtime1 (str "dune-3-12345")
        (str "Dune 3") demoCinema none).id =
      (patheShowtimeToShow (fun s => s) demoShowtime2 (str "dune-3-12345")
        (str "Dune 3") demoCinema none).id ∧
    demoShowtime1 ≠ demoShowtime2 := by
  constructor
  · rfl
  · decide

/-- C9 amended: a Pathé Show's id is determined by (film slug, cinema slug,
raw start-time string) alone; for a fixed film and cinema, two constructed
ids are equal iff the raw time strings are equal — in particular two
screenings at the same start time in different auditoriums share one id, and
ids differ whenever the start times differ. -/
theorem pathe_id_eq_iff_time_eq (isoOf : Str → Str)
    (s1 s2 : PatheShowtime) (filmSlug filmTitle : Str)
    (cinema : PatheCinema) (m1 m2 : Option TmdbMeta) :
    (patheShowtimeToShow isoOf s1 filmSlug filmTitle cinema m1).id =
      (patheShowtimeToShow isoOf s2 filmSlug filmTitle cinema m2).id ↔
    s1.time = s2.time := by
  show mkPatheId filmSlug cinema.slug s1.time =
    mkPatheId filmSlug cinema.slug s2.time ↔ s1.time = s2.time
  constructor
  · intro h
    unfold mkPatheId at h
    exact List.append_cancel_left h
  · intro h
    rw [mkPatheId, mkPatheId, h]

/-- Witness for the amended C9: equal raw times give equal ids via the
equivalence. -/
theorem pathe_id_eq_iff_time_eq_witness :
    (patheShowtimeToShow (fun s => s) demoShowtime1 (str "dune-3-12345")
        (str "Dune 3") demoCinema (some demoTmdb)).id =
      (patheShowtimeToShow (fun s => s) demoShowtime2 (str "dune-3-12345")
        (str "Dune 3") demoCinema none).id :=
  (pathe_id_eq_iff_time_eq (fun s => s) demoShowtime1 demoShowtime2
    (str "dune-3-12345") (str "Dune 3") demoCinema (some demoTmdb) none).mpr
    rfl

/-- C5 counterexample: when the production-id resolution query fails, the
Cineville adapter does NOT let the error propagate to the Orchestrator — its
top-level catch silently degrades to an empty list, so the adapter resolves
with `[]` instead of rejecting. -/
theorem cineville_error_swallowed_counterexample :
    fetchCinevilleShowtimes cvBadEnv [] = .ok [] ∧
    cvBadEnv.films [] = .error (str "boom") :=
  ⟨rfl, rfl⟩

/-- C5 amended: a network failure or non-2xx response in the production-id
resolution query or in any batched showtimes query makes the adapter's inner
pipeline fail as a whole (no partial-batch results), but the failure is
caught by the adapter's top-level catch, which returns an empty list: the
adapter itself never raises to the Orchestrator. -/
theorem cineville_failure_degrades_to_empty (env : CvEnv)
    (watchlistTitles : List Str) :
    (∀ e, fetchCinevilleShowtimes env watchlistTitles ≠ .error e) ∧
    (∀ e, env.films watchlistTitles = .error e →
      fetchCinevilleShowtimes env watchlistTitles = .ok []) ∧
    (∀ films e, env.films watchlistTitles = .ok films →
      exceptMapM env.showtimesBatch (chunksOf CV_BATCH_SIZE films) =
        .error e →
      fetchCinevilleShowtimes env watchlistTitles = .ok []) ∧
    (∀ e, cvRun env watchlistTitles = .error e →
      fetchCinevilleShowtimes env watchlistTitles = .ok []) := by
  refine ⟨?_, ?_, ?_, ?_⟩
  · intro e
    unfold fetchCinevilleShowtimes
    cases cvRun env watchlistTitles <;> simp
  · intro e he
    unfold fetchCinevilleShowtimes cvRun
    rw [he]
  · intro films e hfilms hbatch
    unfold fetchCinevilleShowtimes cvRun
    rw [hfilms]
    by_cases hne : films.isEmpty
    · exfalso
      have : films = [] := by simpa [List.isEmpty_iff] using hne
      subst this
      simp [chunksOf, chunksOfGo, exceptMapM] at hbatch
    · simp [hne, hbatch]
  · intro e he
    unfold fetchCinevilleShowtimes
    rw [he]

/-- Witness for the amended C5 at the concrete failing environment. -/
theorem cineville_failure_degrades_to_empty_witness :
    fetchCinevilleShowtimes cvBadEnv [] = .ok [] :=
  (cineville_failure_degrades_to_empty cvBadEnv []).2.1 (str "boom") rfl

/-- "not found" occurs in a concatenation whenever it occurs in the left
part (JS `includes` over an extended string). -/
theorem strContains_append_left (a b needle : Str)
    (h : strContains a needle = true) :
    strContains (a ++ b) needle = true := by
  induction a with
  | nil =>
    simp only [strContains] at h
    have : needle = [] := by simpa [List.isEmpty_iff] using h
    subst this
    rw [List.nil_append]
    exact strContains_nil b
  | cons x t ih =>
    simp only [strContains, Bool.or_eq_true] at h
    rw [List.cons_append]
    simp only [strContains, Bool.or_eq_true]
    rcases h with hp | hc
    · left
      have hpre : needle <+: x :: t := List.isPrefixOf_iff_prefix.mp hp
      have : needle <+: (x :: t) ++ b :=
        hpre.trans (List.prefix_append (x :: t) b)
      rw [List.cons_append] at this
      exact List.isPrefixOf_iff_prefix.mpr this
    · right
      exact ih hc

/-- The "list not found" error message contains "not found" for every list
path: the needle sits inside the fixed prefix of the message. -/
theorem lb_notFound_mentions (listPath : Str) :
    strContains (lbErrorMessage listPath .notFound) (str "not found") =
      true := by
  show strContains
    ((str "List not found: \"" ++ listPath) ++
      str "\". Please check the URL or username.") (str "not found") = true
  apply strContains_append_left
  apply strContains_append_left
  decide

/-- A retryable outcome with attempts left makes the loop move to the next
attempt. -/
theorem lbLoop_retry_step (listPath : Str) (fetch : Nat → LbOutcome)
    (maxRetries attempt fuel : Nat) (hlt : attempt < maxRetries)
    (hr : lbRetryable listPath (fetch attempt) = true) :
    lbLoop listPath fetch maxRetries attempt (fuel + 1) =
      lbLoop listPath fetch maxRetries (attempt + 1) fuel := by
  cases hf : fetch attempt with
  | ok p => rw [hf] at hr; simp [lbRetryable] at hr
  | status code =>
    rw [hf] at hr
    by_cases h503 : code == 503
    · simp [lbLoop, hf, h503, hlt]
    · simp only [lbRetryable, h503, Bool.false_or, Bool.not_eq_eq_eq_not,
        Bool.not_true, beq_iff_eq] at hr
      simp [lbLoop, hf, h503, hlt, hr]
  | netErr m =>
    rw [hf] at hr
    simp only [lbRetryable, Bool.not_eq_eq_eq_not, Bool.not_true] at hr
    simp [lbLoop, hf, hlt, lbErrorMessage, hr]

/-- On the final attempt, any non-success outcome produces the error
corresponding to that last observed outcome: no attempts remain, so the
catch rethrows whatever was thrown. -/
theorem lbLoop_final (listPath : Str) (fetch : Nat → LbOutcome)
    (maxRetries fuel : Nat)
    (hnotok : ∀ p, fetch maxRetries ≠ .ok p) :
    lbLoop listPath fetch maxRetries maxRetries (fuel + 1) =
      .error (lbFinalErr (fetch maxRetries)) := by
  have hnlt : ¬ (maxRetries < maxRetries) := Nat.lt_irrefl maxRetries
  cases hf : fetch maxRetries with
  | ok p => exact absurd hf (hnotok p)
  | status code =>
    by_cases h503 : code == 503 <;>
      simp [lbLoop, hf, h503, hnlt, lbFinalErr]
  | netErr m => simp [lbLoop, hf, hnlt, lbFinalErr]

/-- C6 counterexample: the first attempt returns HTTP 500 (a non-2xx status
other than 503 and 404) and the call SUCCEEDS on the retry — the claim that
any other non-2xx status raises a generic fetch-failure error immediately
with no retry is false. -/
theorem letterboxd_500_is_retried_counterexample :
    lbFetch500ThenOk 1 = .status 500 ∧
    getLetterboxdList (str "105424/watchlist") lbFetch500ThenOk 3 =
      .ok [{ title := str "x" }] := by
  constructor
  · rfl
  · rfl

/-- C6 amended: the List Source Client retries (with a fixed delay) up to
`maxRetries = 3` attempts on a 503 and on every other outcome whose thrown
error message does not contain "not found" — that covers network errors and
every non-2xx status except 404 whenever neither the network error message
nor the list path embedded in the generic failure message mentions
"not found"; a 404 raises the "list not found" error immediately with no
retry (its message always contains "not found"), and likewise any outcome
failing the message test raises its error immediately; exhausting the
attempts raises the error corresponding to the last observed outcome (the
typed "unavailable" error for a final 503, the generic failure for another
final status, the network error itself for a final network failure). -/
theorem letterboxd_retry_policy (listPath : Str)
    (fetch : Nat → LbOutcome) :
    (fetch 1 = .status 404 →
      getLetterboxdList listPath fetch 3 = .error .notFound) ∧
    (∀ k p, 1 ≤ k → k ≤ 3 →
      (∀ a, 1 ≤ a → a < k → lbRetryable listPath (fetch a) = true) →
      fetch k = .ok p →
      getLetterboxdList listPath fetch 3 = .ok p) ∧
    ((∀ a, 1 ≤ a → a ≤ 3 → lbRetryable listPath (fetch a) = true) →
      getLetterboxdList listPath fetch 3 =
        .error (lbFinalErr (fetch 3))) ∧
    (∀ r, fetch 1 = r → lbRetryable listPath r = false →
      (∀ p, r ≠ .ok p) →
      getLetterboxdList listPath fetch 3 = .error (lbFinalErr r)) := by
  refine ⟨?_, ?_, ?_, ?_⟩
  · intro h404
    unfold getLetterboxdList
    simp [lbLoop, h404, lb_notFound_mentions listPath]
  · intro k p hk1 hk3 hretry hok
    unfold getLetterboxdList
    match k, hk1, hk3 with
    | 1, _, _ =>
      show lbLoop listPath fetch 3 1 (2 + 1) = .ok p
      simp [lbLoop, hok]
    | 2, _, _ =>
      rw [show (3 : Nat) = 2 + 1 from rfl,
        lbLoop_retry_step listPath fetch 3 1 2 (by omega)
          (hretry 1 (by omega) (by omega))]
      simp [lbLoop, hok]
    | 3, _, _ =>
      rw [show (3 : Nat) = 2 + 1 from rfl,
        lbLoop_retry_step listPath fetch 3 1 2 (by omega)
          (hretry 1 (by omega) (by omega)),
        show (2 : Nat) = 1 + 1 from rfl,
        lbLoop_retry_step listPath fetch 3 2 1 (by omega)
          (hretry 2 (by omega) (by omega))]
      simp [lbLoop, hok]
  · intro hretry
    have hnotok : ∀ p, fetch 3 ≠ .ok p := by
      intro p hp
      have h3 := hretry 3 (by omega) (by omega)
      rw [hp] at h3
      simp [lbRetryable] at h3
    unfold getLetterboxdList
    rw [show (3 : Nat) = 2 + 1 from rfl,
      lbLoop_retry_step listPath fetch 3 1 2 (by omega)
        (hretry 1 (by omega) (by omega)),
      show (2 : Nat) = 1 + 1 from rfl,
      lbLoop_retry_step listPath fetch 3 2 1 (by omega)
        (hretry 2 (by omega) (by omega)),
      show (1 : Nat) = 0 + 1 from rfl,
      lbLoop_final listPath fetch 3 0 hnotok]
  · intro r h1 hrf hnotok
    unfold getLetterboxdList
    cases r with
    | ok p => exact absurd rfl (hnotok p)
    | status code =>
      simp only [lbRetryable, Bool.or_eq_false_iff,
        Bool.not_eq_eq_eq_not, Bool.not_false, beq_iff_eq] at hrf
      show lbLoop listPath fetch 3 1 (2 + 1) = _
      simp [lbLoop, h1, hrf.1, hrf.2, lbFinalErr]
    | netErr m =>
      simp only [lbRetryable, Bool.not_eq_eq_eq_not,
        Bool.not_false] at hrf
      show lbLoop listPath fetch 3 1 (2 + 1) = _
      simp [lbLoop, h1, lbErrorMessage, hrf, lbFinalErr]

/-- Witness for the amended C6: a 404 on the first attempt raises the typed
not-found error immediately; the 500-then-ok oracle succeeds on attempt 2
after one retry for an ordinary list path; and for the list path
"not found", whose generic failure message defeats the retry guard, a 500
raises the generic failure immediately. -/
theorem letterboxd_retry_policy_witness :
    getLetterboxdList (str "105424/watchlist") (fun _ => .status 404) 3 =
      .error .notFound ∧
    getLetterboxdList (str "105424/watchlist") lbFetch500ThenOk 3 =
      .ok [{ title := str "x" }] ∧
    getLetterboxdList (str "not found") (fun _ => .status 500) 3 =
      .error (.httpFail 500) :=
  ⟨(letterboxd_retry_policy (str "105424/watchlist")
      (fun _ => .status 404)).1 rfl,
   (letterboxd_retry_policy (str "105424/watchlist") lbFetch500ThenOk).2.1
     2 [{ title := str "x" }] (by omega) (by omega)
     (fun a ha1 ha2 => by
       have ha : a = 1 := by omega
       subst ha
       decide)
     rfl,
   (letterboxd_retry_policy (str "not found")
      (fun _ => .status 500)).2.2.2 (.status 500) rfl (by decide)
     (fun p h => LbOutcome.noConfusion h)⟩

/-- C1: on a cache miss with a successful list fetch, if the Cineville
promise rejects and the Pathé promise fulfills with `shows`, the primary
operation does not raise and returns the envelope containing exactly those
shows; and in general an error escapes `fetchAndCacheShowtimes` only when
the Letterboxd list fetch itself failed (not-found or exhausted retries),
with that very error. -/
theorem partial_failure_merge (parse : Str → Option RespEnvelope)
    (stringify : RespEnvelope → Str) (now : Nat) (st : KVState)
    (listPath : Str) (env : OrchEnv) (listData : List LbFilm)
    (reason : Str) (patheShows : List Show)
    (hmiss : (getCached parse st now).1 = none)
    (hlist : getLetterboxdList listPath env.lbFetch 3 = .ok listData)
    (hcv : env.cineville (listData.map (fun x => x.title)) =
      .rejected reason)
    (hpa : env.pathe (listData.map (fun x => x.title)) =
      .fulfilled patheShows) :
    (fetchAndCacheShowtimes parse stringify now st listPath env).1 =
      .ok { shows := patheShows } ∧
    (∀ (parse2 : Str → Option RespEnvelope)
       (stringify2 : RespEnvelope → Str) (now2 : Nat) (st2 : KVState)
       (listPath2 : Str) (env2 : OrchEnv) (e : LbError),
      (fetchAndCacheShowtimes parse2 stringify2 now2 st2 listPath2
          env2).1 = .error e →
      getLetterboxdList listPath2 env2.lbFetch 3 = .error e) := by
  constructor
  · simp [fetchAndCacheShowtimes, hmiss, hlist, hcv, hpa, settledValue]
  · intro parse2 stringify2 now2 st2 listPath2 env2 e herr
    simp only [fetchAndCacheShowtimes] at herr
    cases hc : (getCached parse2 st2 now2).1 with
    | some cached =>
      rw [hc] at herr
      simp at herr
    | none =>
      rw [hc] at herr
      cases hl : getLetterboxdList listPath2 env2.lbFetch 3 with
      | error e2 =>
        rw [hl] at herr
        simp at herr
        simp [hl, herr]
      | ok listData2 =>
        rw [hl] at herr
        simp at herr

/-- Witness for C1: the concrete environment with a one-film list, a
rejected Cineville promise and a Pathé promise fulfilled with one show
yields the envelope with exactly that show. -/
theorem partial_failure_merge_witness :
    (fetchAndCacheShowtimes (fun _ => none) (fun _ => []) 0 KVState.empty
        (str "105424/watchlist") demoOrchEnv).1 =
      .ok { shows := [demoShow] } :=
  (partial_failure_merge (fun _ => none) (fun _ => []) 0 KVState.empty
    (str "105424/watchlist") demoOrchEnv [{ title := str "Film A" }]
    (str "cineville down") [demoShow] rfl rfl rfl rfl).1
